import Mathlib

/-!
Shallow embedding of `src/edge-tts2openAPI.py`, the streaming audio
transcoding pipeline of an OpenAI-compatible edge-tts HTTP front end.

Bytes are modelled as `Nat`, audio byte strings as `List Nat`, Python floats
as `ℚ` (every request value of interest is exactly representable), and the
asynchronous generators as pure functions producing either value sequences
or event traces.
-/

/-- A chunk yielded by `communicate.stream()` of edge-tts: a type tag
("audio" or metadata) together with its data bytes. -/
structure Chunk where
  type : String
  data : List Nat
  deriving DecidableEq

/-- One entry of `MODEL_CONFIG` (lines 33-52 of the source): quality label,
allowed formats, and the alias-to-provider voice map. -/
structure ModelConfig where
  quality : String
  allowed_formats : List String
  voice_map : List (String × String)
  deriving DecidableEq

/-- The "tts-1" entry of `MODEL_CONFIG` (lines 34-42 of the source). -/
def ttsStdConfig : ModelConfig :=
  { quality := "standard"
    allowed_formats := ["mp3"]
    voice_map := [("alloy", "en-US-GuyNeural"),
                  ("echo", "en-US-JennyNeural"),
                  ("nova", "zh-CN-YunxiNeural")] }

/-- The "tts-1-hd" entry of `MODEL_CONFIG` (lines 43-51 of the source). -/
def ttsHdConfig : ModelConfig :=
  { quality := "enhanced"
    allowed_formats := ["mp3"]
    voice_map := [("alloy", "en-US-AriaNeural"),
                  ("echo", "en-US-DavisNeural"),
                  ("nova", "zh-CN-YunjianNeural")] }

/-- `MODEL_CONFIG` from lines 33-52 of the source. -/
def MODEL_CONFIG : List (String × ModelConfig) :=
  [("tts-1", ttsStdConfig), ("tts-1-hd", ttsHdConfig)]

/-- Python `dict.get(k, d)` on an association list (voice map lookup,
line 83 of the source). -/
def dictGet (m : List (String × String)) (k d : String) : String :=
  match m.find? (fun p => p.1 == k) with
  | some p => p.2
  | none => d

/-- Python `k in dict` on an association list (line 168 of the source). -/
def dictHasKey (m : List (String × String)) (k : String) : Bool :=
  m.any (fun p => p.1 == k)

/-- Python `str.lower()`; the alias strings involved are ASCII, for which
per-character `Char.toLower` agrees with Python. -/
def pyLower (s : String) : String :=
  ⟨s.data.map Char.toLower⟩

/-- Python `int()` applied to an exact rational: truncation toward zero
(floor for nonnegative values, ceiling for negative ones). -/
def pyInt (q : ℚ) : ℤ :=
  if 0 ≤ q then ⌊q⌋ else ⌈q⌉

/-- Round to nearest integer, ties to even — the rounding direction of IEEE-754
binary64 arithmetic. -/
def rne (x : ℚ) : ℤ :=
  if x - ⌊x⌋ < 1/2 then ⌊x⌋
  else if x - ⌊x⌋ > 1/2 then ⌊x⌋ + 1
  else if Even ⌊x⌋ then ⌊x⌋ else ⌊x⌋ + 1

/-- The positive case of `roundDouble`: scale into the 53-bit significand
range `[2^52, 2^53)` using the binary exponent and round to nearest even. -/
def roundDoublePos (q : ℚ) : ℚ :=
  (rne (q * (2:ℚ) ^ ((52:ℤ) - Int.log 2 q)) : ℚ) * (2:ℚ) ^ (Int.log 2 q - 52)

/-- The IEEE-754 binary64 value nearest to an exact rational (round to
nearest, ties to even), for values in the normal range — every number this
program manipulates (speeds in [0.5, 2], volumes in [0.5, 3], percentages up
to 200) lies far from overflow and subnormal territory. Python floats are
binary64, so a decimal literal `d` in the source denotes `roundDouble d`,
and each arithmetic operation rounds its exact result with this function. -/
def roundDouble (q : ℚ) : ℚ :=
  if q = 0 then 0
  else if q < 0 then -roundDoublePos (-q)
  else roundDoublePos q

/-- Python float subtraction: exact difference, correctly rounded. -/
def fsub (a b : ℚ) : ℚ := roundDouble (a - b)

/-- Python float multiplication: exact product, correctly rounded. -/
def fmul (a b : ℚ) : ℚ := roundDouble (a * b)

/-- Lines 92-93 of the source: for quality "enhanced" the requested speed is
reassigned to `max(0.8, min(speed, 1.5))`; otherwise it is left unchanged.
The literal `1.5` is exactly representable in binary64; the literal `0.8`
denotes the double `roundDouble (4/5)` = 0.8000000000000000444089…; `max`
and `min` compare float values exactly. -/
def clampSpeed (quality : String) (speed : ℚ) : ℚ :=
  if quality == "enhanced" then max (roundDouble (4/5)) (min speed (3/2 : ℚ)) else speed

/-- Line 95 of the source:
`rate = f"+{int((speed - 1) * 100)}%" if speed != 1.0 else "+0%"`, with the
subtraction and multiplication performed in binary64 (`1.0` and `100` are
exactly representable) and `int()` truncating the float value toward zero. -/
def rateString (speed : ℚ) : String :=
  if speed ≠ 1 then "+" ++ toString (pyInt (fmul (fsub speed 1) 100)) ++ "%" else "+0%"

/-- The ffmpeg argument vector built at lines 102-109 of the source. The
output container format argument is the hard-coded string "mp3". -/
def ffmpegCmd (volume : ℚ) : List String :=
  ["ffmpeg", "-i", "pipe:0", "-af", "volume=" ++ toString volume,
   "-f", "mp3", "-loglevel", "quiet", "pipe:1"]

/-- Stdio wiring of `create_subprocess_exec` at lines 110-115: all three
standard channels are connected to pipes. -/
structure SpawnConfig where
  cmd : List String
  stdinPipe : Bool
  stdoutPipe : Bool
  stderrPipe : Bool
  deriving DecidableEq

/-- What `generate_edge_audio` does after validation: the `volume != 1.0`
branch spawns an ffmpeg process (lines 100-138), the `else` branch yields the
raw audio chunks (lines 140-144). For the bypass branch we record the exact
sequence of yielded byte strings. -/
inductive Plan where
  | bypass (output : List (List Nat))
  | filtered (spawn : SpawnConfig)
  deriving DecidableEq

/-- Result of a successful `generate_edge_audio` invocation: the resolved
provider voice, the rate string handed to `edge_tts.Communicate`, and the
chosen pipeline plan. -/
structure GenOutcome where
  realVoice : String
  rate : String
  plan : Plan
  deriving DecidableEq

/-- The bypass loop at lines 142-144 of the source:
`async for chunk in communicate.stream(): if chunk["type"] == "audio": yield chunk["data"]`. -/
def bypassLoop : List Chunk → List (List Nat)
  | [] => []
  | c :: rest => if c.type == "audio" then c.data :: bypassLoop rest else bypassLoop rest

/-- `generate_edge_audio` (lines 78-148 of the source), shallowly embedded.
`allVoices` is the list of `ShortName`s returned by `edge_tts.list_voices()`;
`stream` is the chunk sequence `communicate.stream()` would produce. The
function resolves the provider voice, validates it against the catalog
(raising `ValueError` — modelled as `.error` — before any chunk is produced),
computes the rate string from the possibly clamped speed, and picks the
pipeline plan according to `volume != 1.0`. -/
def generate_edge_audio (allVoices : List String) (stream : List Chunk)
    (text : String) (config : ModelConfig) (voice : String)
    (speed volume : ℚ) : Except String GenOutcome :=
  let real_voice := dictGet config.voice_map (pyLower voice) voice
  if ¬ allVoices.any (fun v => v == real_voice) then
    .error ("无效语音: " ++ real_voice)
  else
    let rate := rateString (clampSpeed config.quality speed)
    let _ := text
    if volume ≠ 1 then
      .ok { realVoice := real_voice, rate := rate
            plan := .filtered { cmd := ffmpegCmd volume
                                stdinPipe := true, stdoutPipe := true, stderrPipe := true } }
    else
      .ok { realVoice := real_voice, rate := rate, plan := .bypass (bypassLoop stream) }

/-- The request body accepted by `POST /v1/audio/speech` (lines 23-29 of the
source). Pydantic field constraints (`speed ∈ [0.5, 2.0]`,
`volume ∈ [0.5, 3.0]`) are enforced before the handler runs and appear as
hypotheses where a claim depends on them. -/
structure TTSParameters where
  model : String := "tts-1"
  input : String
  voice : String := "alloy"
  response_format : String := "mp3"
  speed : ℚ := 1
  volume : ℚ := 1
  deriving DecidableEq

/-- The observable result of the `create_speech` endpoint (lines 150-197):
either a raised `HTTPException` (FastAPI renders it with the given status),
a `StreamingResponse` wrapping a `generate_edge_audio` invocation (we record
the media type, headers and the arguments passed to the generator), or a
plain dict returned from the handler, which FastAPI serialises as a JSON
body on a response with HTTP status 200. -/
inductive SpeechResponse where
  | httpError (status : Nat) (detail : String)
  | streaming (mediaType : String) (headers : List (String × String))
      (text : String) (config : ModelConfig) (voice : String) (speed volume : ℚ)
  | jsonBody (status : Nat) (message : String) (etype : String) (code : Nat)
  deriving DecidableEq

/-- `create_speech` (lines 150-197 of the source). Validation happens inside
the `try` block: unknown model, disallowed format and unknown voice alias
each raise `HTTPException(400, ...)`, which the `except HTTPException`
clause re-raises unchanged. `internalExc` models a non-`HTTPException`
exception raised inside the `try` block after validation; the bare
`except Exception` clause turns it into a returned dict
`{error: {message, type, code}}`, which FastAPI sends with status 200. -/
def create_speech (req : TTSParameters) (internalExc : Option String) : SpeechResponse :=
  match MODEL_CONFIG.find? (fun p => p.1 == req.model) with
  | none => .httpError 400 ("不支持的模型: " ++ req.model)
  | some (_, config) =>
    if ¬ config.allowed_formats.contains req.response_format then
      .httpError 400 ("模型" ++ req.model ++ "不支持格式: " ++ req.response_format)
    else
      if ¬ dictHasKey config.voice_map (pyLower req.voice) then
        .httpError 400 ("模型" ++ req.model ++ "不支持语音: " ++ req.voice)
      else
        match internalExc with
        | some m => .jsonBody 200 m "invalid_request_error" 500
        | none =>
          .streaming ("audio/" ++ req.response_format)
            [("Content-Disposition", "attachment; filename=speech.mp3"),
             ("OpenAI-Processing-Ms", "800")]
            req.input config (pyLower req.voice) req.speed req.volume

/-- One event of the writer task `write_audio` (lines 55-66 of the source). -/
inductive WEv where
  | write (data : List Nat)
  | drain
  | closeInput
  | waitClosed
  | logError (msg : String)
  deriving DecidableEq

/-- One item observed while iterating `communicate.stream()` inside
`write_audio`: a yielded chunk whose write may fail mid-stream
(`writeFail = some msg` models `stdin.drain()` raising), or the stream
itself raising. -/
inductive SrcItem where
  | chunk (type : String) (data : List Nat) (writeFail : Option String)
  | srcError (msg : String)
  deriving DecidableEq

/-- The `try` block of `write_audio` (lines 57-64): iterate the stream,
write audio-tagged chunks to stdin and drain, and on exhaustion close stdin
and wait for the closure; returns the performed events together with the
exception escaping the block, if any. `stdinPresent` models
`stdin is not None`. -/
def write_body (stdinPresent : Bool) : List SrcItem → List WEv × Option String
  | [] => ((if stdinPresent then [WEv.closeInput, WEv.waitClosed] else []), none)
  | .srcError m :: _ => ([], some m)
  | .chunk t d wf :: rest =>
    if t == "audio" && stdinPresent then
      match wf with
      | some m => ([WEv.write d], some m)
      | none =>
        let r := write_body stdinPresent rest
        (WEv.write d :: WEv.drain :: r.1, r.2)
    else
      write_body stdinPresent rest

/-- `write_audio` (lines 55-66): the `try` block wrapped by
`except Exception as e: logger.error(...)` — every escaping exception is
logged and swallowed, so the task always ends without re-raising. -/
def write_audio (stdinPresent : Bool) (src : List SrcItem) : List WEv :=
  match write_body stdinPresent src with
  | (evs, none) => evs
  | (evs, some m) => evs ++ [WEv.logError m]

/-- The first failure `write_audio` runs into on `src`, if any: either the
source stream raising, or the write of an audio chunk failing (only chunks
that are actually written can fail). -/
def firstFailure (stdinPresent : Bool) : List SrcItem → Option String
  | [] => none
  | .srcError m :: _ => some m
  | .chunk t _ wf :: rest =>
    if t == "audio" && stdinPresent then
      match wf with
      | some m => some m
      | none => firstFailure stdinPresent rest
    else
      firstFailure stdinPresent rest

/-- The reader loop over ffmpeg's stdout (`read_audio`, lines 69-75, and the
inline loop at lines 124-128): read blocks of at most 4096 bytes from the
total stdout byte sequence, stopping at the empty read. -/
def read_audio : List Nat → List (List Nat)
  | [] => []
  | b :: rest => (b :: rest.take 4095) :: read_audio (rest.drop 4095)
termination_by l => l.length
decreasing_by
  simp only [List.length_cons, List.length_drop]
  omega

/-- One event of the filtered-path coordinator (lines 123-138 of the
source): a chunk yielded to the consumer, or one step of the `finally`
block. `waitProcExit` records the timeout the wait was given; the source's
`await proc.wait()` carries none. `forceKill` (a `kill()`/`terminate()`
call) is expressible so that its absence from every trace can be stated. -/
inductive Ev where
  | yieldChunk (data : List Nat)
  | closeStdin
  | waitProcExit (timeout : Option Nat)
  | forceKill
  | cancelWriter
  | awaitWriter
  deriving DecidableEq

/-- Whether an event hands an audio chunk to the consumer. -/
def Ev.isYield : Ev → Bool
  | .yieldChunk _ => true
  | _ => false

/-- How the consumption of the filtered generator ends: the consumer drains
it to completion, disconnects after `k` chunks (the generator is closed at
its suspension point), or the request errors out after `k` chunks. -/
inductive ExitCond where
  | completed
  | disconnectAfter (k : Nat)
  | errorAfter (k : Nat)
  deriving DecidableEq

/-- The `while True` read loop at lines 124-128: yields the stdout blocks in
order until the empty read, unless consumption stops first. -/
def readerLoop : List (List Nat) → ExitCond → List Ev
  | _, .disconnectAfter 0 => []
  | _, .errorAfter 0 => []
  | [], _ => []
  | b :: rest, .completed => .yieldChunk b :: readerLoop rest .completed
  | b :: rest, .disconnectAfter (k + 1) => .yieldChunk b :: readerLoop rest (.disconnectAfter k)
  | b :: rest, .errorAfter (k + 1) => .yieldChunk b :: readerLoop rest (.errorAfter k)

/-- The `finally` block at lines 129-138: `if proc.stdin: proc.stdin.close()`
(`proc.stdin` is a pipe writer, hence truthy — `stdinTruthy`), then
`await proc.wait()` with no timeout, then `writer_task.cancel()` and
`await writer_task` swallowing `CancelledError`. -/
def cleanupEvents (stdinTruthy : Bool) : List Ev :=
  (if stdinTruthy then [Ev.closeStdin] else []) ++
    [Ev.waitProcExit none, Ev.cancelWriter, Ev.awaitWriter]

/-- The full event trace of the filtered path (lines 123-138): the read loop
followed, on every exit path, by the `finally` block. `out` is the block
sequence ffmpeg's stdout delivers. -/
def filteredTrace (out : List (List Nat)) (exit : ExitCond) : List Ev :=
  readerLoop out exit ++ cleanupEvents true

/-- Modelled from the spec: the termination discipline §4.2 claims for
`terminate(process)` — a wait for process exit bounded by a grace period,
or a forced termination if the process is still running afterwards. A trace
satisfies it when it contains a bounded wait or a forced kill. -/
def specBoundedGraceTermination (tr : List Ev) : Prop :=
  (∃ t, Ev.waitProcExit (some t) ∈ tr) ∨ Ev.forceKill ∈ tr

/-! ## Helper lemmas -/

theorem pyInt_intCast (z : ℤ) : pyInt ((z : ℚ)) = z := by
  unfold pyInt; split <;> simp

theorem rne_eq {x : ℚ} {m : ℤ} (h1 : (m : ℚ) - 1/2 < x) (h2 : x < (m : ℚ) + 1/2) :
    rne x = m := by
  rcases le_or_lt (m : ℚ) x with hmx | hmx
  · have hf : ⌊x⌋ = m := by
      rw [Int.floor_eq_iff]
      constructor
      · exact_mod_cast hmx
      · have h' : (m : ℚ) + 1/2 < m + 1 := by norm_num
        linarith
    rw [rne, hf, if_pos (by linarith)]
  · have hf : ⌊x⌋ = m - 1 := by
      rw [Int.floor_eq_iff]
      push_cast
      constructor <;> linarith
    rw [rne, hf]
    rw [if_neg (by push_cast; linarith), if_pos (by push_cast; linarith)]
    omega

theorem roundDouble_eq (q : ℚ) (e m : ℤ)
    (hlo : (2:ℚ) ^ e ≤ q) (hhi : q < (2:ℚ) ^ (e + 1))
    (h1 : (m : ℚ) - 1/2 < q * (2:ℚ) ^ ((52:ℤ) - e))
    (h2 : q * (2:ℚ) ^ ((52:ℤ) - e) < (m : ℚ) + 1/2) :
    roundDouble q = (m : ℚ) * (2:ℚ) ^ (e - 52) := by
  have hq : 0 < q := lt_of_lt_of_le (by positivity) hlo
  have hlog : Int.log 2 q = e := by
    have hle : e ≤ Int.log 2 q := by
      rw [← Int.zpow_le_iff_le_log (by norm_num) hq]
      exact_mod_cast hlo
    have hlt : Int.log 2 q < e + 1 := by
      rw [← Int.lt_zpow_iff_log_lt (by norm_num) hq]
      exact_mod_cast hhi
    omega
  rw [roundDouble, if_neg (by positivity), if_neg (by linarith), roundDoublePos, hlog,
    rne_eq h1 h2]

theorem roundDouble_zero : roundDouble 0 = 0 := by
  simp [roundDouble]

theorem roundDouble_neg_eq {q : ℚ} (hq : 0 < q) : roundDouble (-q) = -roundDouble q := by
  rw [roundDouble, roundDouble]
  rw [if_neg (show ¬ (-q = 0) from fun h => by linarith)]
  rw [if_pos (show -q < 0 by linarith)]
  rw [if_neg (show ¬ (q = 0) from fun h => by linarith)]
  rw [if_neg (show ¬ (q < 0) by linarith)]
  rw [neg_neg]

theorem rateString_of_ne {s : ℚ} (hs : s ≠ 1) :
    rateString s = "+" ++ toString (pyInt (fmul (fsub s 1) 100)) ++ "%" := by
  rw [rateString, if_pos hs]

theorem rateString_of_eq_one {s : ℚ} (hs : s = 1) : rateString s = "+0%" := by
  subst hs; simp [rateString]

theorem fmulFsubOne_one : fmul (fsub (1 : ℚ) 1) 100 = 0 := by
  rw [fsub, sub_self, roundDouble_zero, fmul, zero_mul, roundDouble_zero]

/-- `float(1.3)` = 5854679515581645 · 2⁻⁵². -/
theorem rd_13_10 : roundDouble (13/10) = 5854679515581645 / 4503599627370496 := by
  rw [roundDouble_eq (13/10) 0 5854679515581645 (by norm_num) (by norm_num) (by norm_num)
    (by norm_num)]
  norm_num

/-- `float(1.2)` = 5404319552844595 · 2⁻⁵². -/
theorem rd_6_5 : roundDouble (6/5) = 5404319552844595 / 4503599627370496 := by
  rw [roundDouble_eq (6/5) 0 5404319552844595 (by norm_num) (by norm_num) (by norm_num)
    (by norm_num)]
  norm_num

/-- `float(0.8)` = 3602879701896397 · 2⁻⁵² (slightly above 4/5). -/
theorem rd_4_5 : roundDouble (4/5) = 3602879701896397 / 4503599627370496 := by
  rw [roundDouble_eq (4/5) (-1) 7205759403792794 (by norm_num) (by norm_num) (by norm_num)
    (by norm_num)]
  norm_num

/-- `float(0.995)` = 8962163258467287 · 2⁻⁵³ (slightly below 199/200). -/
theorem rd_199_200 : roundDouble (199/200) = 8962163258467287 / 9007199254740992 := by
  rw [roundDouble_eq (199/200) (-1) 8962163258467287 (by norm_num) (by norm_num) (by norm_num)
    (by norm_num)]
  norm_num

/-- `(1.3 - 1) * 100` in binary64 truncates to 30: the subtraction is exact
(0.30000000000000004440…) and the product rounds to 30.0000000000000036…. -/
theorem rate_percent_13_10 : pyInt (fmul (fsub (roundDouble (13/10)) 1) 100) = 30 := by
  rw [rd_13_10]
  rw [show fsub (5854679515581645 / 4503599627370496 : ℚ) 1 =
      1351079888211149 / 4503599627370496 by
    rw [fsub, show (5854679515581645 / 4503599627370496 : ℚ) - 1 =
      1351079888211149 / 4503599627370496 by norm_num]
    rw [roundDouble_eq _ (-2) 5404319552844596 (by norm_num) (by norm_num) (by norm_num)
      (by norm_num)]
    norm_num]
  rw [show fmul (1351079888211149 / 4503599627370496 : ℚ) 100 =
      8444249301319681 / 281474976710656 by
    rw [fmul, show (1351079888211149 / 4503599627370496 : ℚ) * 100 =
      135107988821114900 / 4503599627370496 by norm_num]
    rw [roundDouble_eq _ 4 8444249301319681 (by norm_num) (by norm_num) (by norm_num)
      (by norm_num)]
    norm_num]
  rw [pyInt, if_pos (by norm_num), Int.floor_eq_iff]
  norm_num

/-- `(1.2 - 1) * 100` in binary64 truncates to 19, not 20: the exact
difference is 0.19999999999999995559… and the product rounds to
19.999999999999996447…. -/
theorem rate_percent_6_5 : pyInt (fmul (fsub (roundDouble (6/5)) 1) 100) = 19 := by
  rw [rd_6_5]
  rw [show fsub (5404319552844595 / 4503599627370496 : ℚ) 1 =
      900719925474099 / 4503599627370496 by
    rw [fsub, show (5404319552844595 / 4503599627370496 : ℚ) - 1 =
      900719925474099 / 4503599627370496 by norm_num]
    rw [roundDouble_eq _ (-3) 7205759403792792 (by norm_num) (by norm_num) (by norm_num)
      (by norm_num)]
    norm_num]
  rw [show fmul (900719925474099 / 4503599627370496 : ℚ) 100 =
      5629499534213119 / 281474976710656 by
    rw [fmul, show (900719925474099 / 4503599627370496 : ℚ) * 100 =
      90071992547409900 / 4503599627370496 by norm_num]
    rw [roundDouble_eq _ 4 5629499534213119 (by norm_num) (by norm_num) (by norm_num)
      (by norm_num)]
    norm_num]
  rw [pyInt, if_pos (by norm_num), Int.floor_eq_iff]
  norm_num

/-- `(0.8 - 1) * 100` in binary64 truncates to -19, not -20: the exact
difference is -0.19999999999999995559… and the product rounds to
-19.999999999999996447…. -/
theorem rate_percent_4_5 : pyInt (fmul (fsub (roundDouble (4/5)) 1) 100) = -19 := by
  rw [rd_4_5]
  rw [show fsub (3602879701896397 / 4503599627370496 : ℚ) 1 =
      -(900719925474099 / 4503599627370496) by
    rw [fsub, show (3602879701896397 / 4503599627370496 : ℚ) - 1 =
      -(900719925474099 / 4503599627370496) by norm_num]
    rw [roundDouble_neg_eq (by norm_num)]
    rw [roundDouble_eq _ (-3) 7205759403792792 (by norm_num) (by norm_num) (by norm_num)
      (by norm_num)]
    norm_num]
  rw [show fmul (-(900719925474099 / 4503599627370496) : ℚ) 100 =
      -(5629499534213119 / 281474976710656) by
    rw [fmul, show (-(900719925474099 / 4503599627370496) : ℚ) * 100 =
      -(90071992547409900 / 4503599627370496) by norm_num]
    rw [roundDouble_neg_eq (by norm_num)]
    rw [roundDouble_eq _ 4 5629499534213119 (by norm_num) (by norm_num) (by norm_num)
      (by norm_num)]
    norm_num]
  rw [pyInt, if_neg (by norm_num), Int.ceil_eq_iff]
  norm_num

/-- `(0.995 - 1) * 100` in binary64 truncates to 0: the exact difference is
-0.0050000000000000000044… and the product -0.50000000000000004440… is still
strictly above -1, so `int()` gives 0. -/
theorem rate_percent_199_200 : pyInt (fmul (fsub (roundDouble (199/200)) 1) 100) = 0 := by
  rw [rd_199_200]
  rw [show fsub (8962163258467287 / 9007199254740992 : ℚ) 1 =
      -(45035996273705 / 9007199254740992) by
    rw [fsub, show (8962163258467287 / 9007199254740992 : ℚ) - 1 =
      -(45035996273705 / 9007199254740992) by norm_num]
    rw [roundDouble_neg_eq (by norm_num)]
    rw [roundDouble_eq _ (-8) 5764607523034240 (by norm_num) (by norm_num) (by norm_num)
      (by norm_num)]
    norm_num]
  rw [show fmul (-(45035996273705 / 9007199254740992) : ℚ) 100 =
      -(4503599627370500 / 9007199254740992) by
    rw [fmul, show (-(45035996273705 / 9007199254740992) : ℚ) * 100 =
      -(4503599627370500 / 9007199254740992) by norm_num]
    rw [roundDouble_neg_eq (by norm_num)]
    rw [roundDouble_eq _ (-1) 4503599627370500 (by norm_num) (by norm_num) (by norm_num)
      (by norm_num)]
    norm_num]
  rw [pyInt, if_neg (by norm_num), Int.ceil_eq_iff]
  norm_num

/-- `(0.5 - 1) * 100` in binary64 is exactly -50 (0.5, 1, 100 and all
intermediate results are exactly representable). -/
theorem rate_percent_1_2 : pyInt (fmul (fsub (1/2 : ℚ) 1) 100) = -50 := by
  rw [show fsub (1/2 : ℚ) 1 = -(1/2) by
    rw [fsub, show (1/2 : ℚ) - 1 = -(1/2) by norm_num]
    rw [roundDouble_neg_eq (by norm_num)]
    rw [roundDouble_eq _ (-1) 4503599627370496 (by norm_num) (by norm_num) (by norm_num)
      (by norm_num)]
    norm_num]
  rw [show fmul (-(1/2) : ℚ) 100 = -50 by
    rw [fmul, show (-(1/2) : ℚ) * 100 = -(50) by norm_num]
    rw [roundDouble_neg_eq (by norm_num)]
    rw [roundDouble_eq _ 5 7036874417766400 (by norm_num) (by norm_num) (by norm_num)
      (by norm_num)]
    norm_num]
  rw [show (-50 : ℚ) = ((-50 : ℤ) : ℚ) by norm_num, pyInt_intCast]

theorem bypassLoop_eq_filter_map (stream : List Chunk) :
    bypassLoop stream = (stream.filter (fun c => c.type == "audio")).map Chunk.data := by
  induction stream with
  | nil => rfl
  | cons c rest ih =>
    by_cases h : c.type == "audio" <;> simp [bypassLoop, List.filter_cons, h, ih]

theorem readerLoop_eq_take (out : List (List Nat)) :
    ∀ exit, ∃ k, readerLoop out exit = (out.take k).map Ev.yieldChunk := by
  induction out with
  | nil =>
    intro exit
    exact ⟨0, by cases exit with
      | completed => rfl
      | disconnectAfter k => cases k <;> rfl
      | errorAfter k => cases k <;> rfl⟩
  | cons b rest ih =>
    intro exit
    cases exit with
    | completed =>
      obtain ⟨k, hk⟩ := ih .completed
      exact ⟨k + 1, by simp [readerLoop, hk]⟩
    | disconnectAfter k =>
      cases k with
      | zero => exact ⟨0, rfl⟩
      | succ k =>
        obtain ⟨k', hk⟩ := ih (.disconnectAfter k)
        exact ⟨k' + 1, by simp [readerLoop, hk]⟩
    | errorAfter k =>
      cases k with
      | zero => exact ⟨0, rfl⟩
      | succ k =>
        obtain ⟨k', hk⟩ := ih (.errorAfter k)
        exact ⟨k' + 1, by simp [readerLoop, hk]⟩

theorem filteredTrace_shape (out : List (List Nat)) (exit : ExitCond) :
    ∃ k, filteredTrace out exit =
      (out.take k).map Ev.yieldChunk ++
        [Ev.closeStdin, Ev.waitProcExit none, Ev.cancelWriter, Ev.awaitWriter] := by
  obtain ⟨k, hk⟩ := readerLoop_eq_take out exit
  exact ⟨k, by simp [filteredTrace, cleanupEvents, hk]⟩

theorem readerLoop_disconnect_yield_le (out : List (List Nat)) :
    ∀ k, ((readerLoop out (.disconnectAfter k)).filter Ev.isYield).length ≤ k := by
  induction out with
  | nil => intro k; cases k <;> simp [readerLoop]
  | cons b rest ih =>
    intro k
    cases k with
    | zero => simp [readerLoop]
    | succ k =>
      have := ih k
      simp only [readerLoop, List.filter_cons, Ev.isYield, List.length_cons, if_pos]
      omega


theorem generate_edge_audio_eq (allVoices : List String) (stream : List Chunk)
    (text : String) (config : ModelConfig) (voice : String) (speed volume : ℚ) :
    generate_edge_audio allVoices stream text config voice speed volume =
      (if (allVoices.any fun v => v == dictGet config.voice_map (pyLower voice) voice) = true then
        (if volume ≠ 1 then
          .ok { realVoice := dictGet config.voice_map (pyLower voice) voice
                rate := rateString (clampSpeed config.quality speed)
                plan := .filtered { cmd := ffmpegCmd volume
                                    stdinPipe := true, stdoutPipe := true, stderrPipe := true } }
        else
          .ok { realVoice := dictGet config.voice_map (pyLower voice) voice
                rate := rateString (clampSpeed config.quality speed)
                plan := .bypass (bypassLoop stream) })
      else
        .error ("无效语音: " ++ dictGet config.voice_map (pyLower voice) voice)) := by
  unfold generate_edge_audio
  by_cases hC : (allVoices.any fun v => v == dictGet config.voice_map (pyLower voice) voice) = true
  · rw [if_neg (not_not_intro hC), if_pos hC]
  · rw [if_pos hC, if_neg hC]

theorem generate_ok_inv {allVoices : List String} {stream : List Chunk}
    {text : String} {config : ModelConfig} {voice : String} {speed volume : ℚ}
    {r : GenOutcome}
    (h : generate_edge_audio allVoices stream text config voice speed volume = .ok r) :
    (allVoices.any fun v => v == dictGet config.voice_map (pyLower voice) voice) = true ∧
    r = { realVoice := dictGet config.voice_map (pyLower voice) voice
          rate := rateString (clampSpeed config.quality speed)
          plan := if volume ≠ 1 then
              .filtered { cmd := ffmpegCmd volume
                          stdinPipe := true, stdoutPipe := true, stderrPipe := true }
            else .bypass (bypassLoop stream) } := by
  rw [generate_edge_audio_eq] at h
  split at h
  · rename_i hC
    split at h
    · rename_i hvol
      injection h with h
      exact ⟨hC, by rw [if_pos hvol, ← h]⟩
    · rename_i hvol
      injection h with h
      exact ⟨hC, by rw [if_neg hvol, ← h]⟩
  · exact absurd h (by simp)

/-! ## Claim theorems -/

/-- C3: On every exit path of the filtered pipeline — normal completion,
downstream disconnect, upstream error — the trace is the yielded chunk
prefix followed exactly, in this order, by: close the filter's stdin, wait
for process exit, cancel the writer task, await its cancellation; hence no
AudioChunk is ever emitted once cleanup begins, and after a disconnect at
`k` pulls at most `k` chunks were ever emitted. -/
theorem c3_cleanup_order_on_every_exit_path :
    ∀ (out : List (List Nat)) (exit : ExitCond),
      (∃ k, filteredTrace out exit =
        (out.take k).map Ev.yieldChunk ++
          [Ev.closeStdin, Ev.waitProcExit none, Ev.cancelWriter, Ev.awaitWriter]) ∧
      ∀ k, ((filteredTrace out (.disconnectAfter k)).filter Ev.isYield).length ≤ k := by
  intro out exit
  refine ⟨filteredTrace_shape out exit, ?_⟩
  intro k
  have h := readerLoop_disconnect_yield_le out k
  simpa [filteredTrace, cleanupEvents, List.filter_append, Ev.isYield] using h

/-- C1 counterexample: on a concrete filtered run (one stdout block, client
disconnecting before the first pull) the cleanup performs no wait bounded by
a grace period and no forced termination — `await proc.wait()` is unbounded
and neither `kill()` nor `terminate()` is ever called, contradicting the
claimed grace-period-then-force discipline. -/
theorem c1_counterexample :
    ¬ specBoundedGraceTermination (filteredTrace [[0]] (.disconnectAfter 0)) := by
  simp [specBoundedGraceTermination, filteredTrace, readerLoop, cleanupEvents]

/-- C1 (amended): for every request with volumeFactor ≠ 1.0, once the filter
process has been spawned, every exit path (normal completion, client
disconnect, cancellation, error) closes the process's stdin and waits for
the process to exit — with no timeout — before the generator returns; no
forced termination ever occurs, so the guarantee is an unbounded wait for
exit, not a bounded grace period followed by a kill. -/
theorem c1_process_always_awaited_never_killed :
    ∀ (out : List (List Nat)) (exit : ExitCond),
      Ev.closeStdin ∈ filteredTrace out exit ∧
      Ev.waitProcExit none ∈ filteredTrace out exit ∧
      Ev.forceKill ∉ filteredTrace out exit ∧
      ∀ t, Ev.waitProcExit (some t) ∉ filteredTrace out exit := by
  intro out exit
  obtain ⟨k, hk⟩ := filteredTrace_shape out exit
  rw [hk]
  refine ⟨by simp, by simp, fun hmem => ?_, fun t hmem => ?_⟩
  · rcases List.mem_append.1 hmem with hm | hm
    · obtain ⟨b, _, hb⟩ := List.mem_map.1 hm
      cases hb
    · simp at hm
  · rcases List.mem_append.1 hmem with hm | hm
    · obtain ⟨b, _, hb⟩ := List.mem_map.1 hm
      cases hb
    · simp at hm

/-- C2: for every request with volumeFactor = 1.0 that passes voice
validation, no filter subprocess is spawned and the emitted sequence is
exactly the data of the audio-tagged source chunks, in order; non-audio
chunks are never emitted. -/
theorem c2_bypass_is_exact_audio_concat :
    ∀ (allVoices : List String) (stream : List Chunk) (text : String)
      (config : ModelConfig) (voice : String) (speed : ℚ) (r : GenOutcome),
      generate_edge_audio allVoices stream text config voice speed 1 = .ok r →
      r.plan = .bypass ((stream.filter (fun c => c.type == "audio")).map Chunk.data) ∧
      (∀ scfg, r.plan ≠ .filtered scfg) ∧
      (∀ b ∈ (stream.filter (fun c => c.type == "audio")).map Chunk.data,
        ∃ c, c ∈ stream ∧ c.type = "audio" ∧ b = c.data) := by
  intro allVoices stream text config voice speed r h
  obtain ⟨hC, rfl⟩ := generate_ok_inv h
  have hne : ¬ ((1 : ℚ) ≠ 1) := by simp
  refine ⟨?_, ?_, ?_⟩
  · show (if (1 : ℚ) ≠ 1 then
        Plan.filtered { cmd := ffmpegCmd 1
                        stdinPipe := true, stdoutPipe := true, stderrPipe := true }
      else Plan.bypass (bypassLoop stream)) =
      Plan.bypass ((stream.filter (fun c => c.type == "audio")).map Chunk.data)
    rw [if_neg hne, bypassLoop_eq_filter_map]
  · intro scfg
    show (if (1 : ℚ) ≠ 1 then
        Plan.filtered { cmd := ffmpegCmd 1
                        stdinPipe := true, stdoutPipe := true, stderrPipe := true }
      else Plan.bypass (bypassLoop stream)) ≠ Plan.filtered scfg
    rw [if_neg hne]
    simp
  · intro b hb
    simp only [List.mem_map, List.mem_filter] at hb
    obtain ⟨c, ⟨hc, hty⟩, hdata⟩ := hb
    exact ⟨c, hc, by simpa using hty, hdata.symm⟩

/-- C2 witness input: a provider stream with audio and metadata chunks. -/
def c2Stream : List Chunk :=
  [{ type := "audio", data := [1, 2] },
   { type := "WordBoundary", data := [9] },
   { type := "audio", data := [3] }]

/-- C2 witness outcome (what the bypass run produces). -/
def c2Outcome : GenOutcome :=
  { realVoice := "zh-CN-YunxiNeural"
    rate := rateString (clampSpeed "standard" 1)
    plan := .bypass (bypassLoop c2Stream) }

theorem c2_witness : c2Outcome.plan = Plan.bypass [[1, 2], [3]] := by
  have hgen : generate_edge_audio ["zh-CN-YunxiNeural"] c2Stream "hello"
      ttsStdConfig "nova" 1 1 = .ok c2Outcome := by
    rw [generate_edge_audio_eq, if_pos (by decide), if_neg (by simp)]
    rfl
  have h := (c2_bypass_is_exact_audio_concat ["zh-CN-YunxiNeural"] c2Stream "hello"
    ttsStdConfig "nova" 1 c2Outcome hgen).1
  rw [h]
  decide

/-- C5: for every request whose resolved provider voice is not in the
provider's current voice catalog, `generate_edge_audio` fails with the
unknown-voice error before synthesis begins — the result is the error, and
no successful outcome (hence no streamed byte) is ever produced. -/
theorem c5_unknown_voice_fails_before_streaming :
    ∀ (allVoices : List String) (stream : List Chunk) (text : String)
      (config : ModelConfig) (voice : String) (speed volume : ℚ),
      dictGet config.voice_map (pyLower voice) voice ∉ allVoices →
      generate_edge_audio allVoices stream text config voice speed volume =
        .error ("无效语音: " ++ dictGet config.voice_map (pyLower voice) voice) ∧
      ∀ r, generate_edge_audio allVoices stream text config voice speed volume ≠ .ok r := by
  intro allVoices stream text config voice speed volume hmem
  have hany : (allVoices.any fun v => v == dictGet config.voice_map (pyLower voice) voice) ≠ true := by
    intro h'
    obtain ⟨x, hx, hbeq⟩ := List.any_eq_true.mp h'
    exact hmem (by rwa [eq_of_beq hbeq] at hx)
  constructor
  · rw [generate_edge_audio_eq, if_neg hany]
  · intro r
    rw [generate_edge_audio_eq, if_neg hany]
    exact fun hcon => Except.noConfusion hcon

theorem c5_witness :
    generate_edge_audio [] [] "t" ttsStdConfig "bogus" 1 1 =
      .error ("无效语音: " ++ dictGet ttsStdConfig.voice_map (pyLower "bogus") "bogus") :=
  (c5_unknown_voice_fails_before_streaming [] [] "t" ttsStdConfig "bogus" 1 1
    (List.not_mem_nil _)).1

theorem write_body_snd (sp : Bool) :
    ∀ src, (write_body sp src).2 = firstFailure sp src := by
  intro src
  induction src with
  | nil => by_cases hsp : sp <;> simp [write_body, firstFailure, hsp]
  | cons item rest ih =>
    cases item with
    | srcError s => simp [write_body, firstFailure]
    | chunk t d wf =>
      by_cases hcond : (t == "audio" && sp) = true
      · cases wf <;> simp [write_body, firstFailure, hcond, ih]
      · simp [write_body, firstFailure, hcond, ih]

theorem write_body_logError_free (sp : Bool) :
    ∀ (src : List SrcItem) (m : String), WEv.logError m ∉ (write_body sp src).1 := by
  intro src
  induction src with
  | nil => intro m; by_cases hsp : sp <;> simp [write_body, hsp]
  | cons item rest ih =>
    intro m
    cases item with
    | srcError s => simp [write_body]
    | chunk t d wf =>
      by_cases hcond : (t == "audio" && sp) = true
      · cases wf with
        | some s => simp [write_body, hcond]
        | none =>
          simp only [write_body, hcond, if_true, List.mem_cons]
          rintro (h | h | h)
          · cases h
          · cases h
          · exact ih m h
      · simp only [write_body, hcond]
        rw [if_neg (by simp [hcond])]
        exact ih m

theorem write_body_success_shape (sp : Bool) :
    ∀ src, firstFailure sp src = none → sp = true →
      ∃ evs, (write_body sp src).1 = evs ++ [WEv.closeInput, WEv.waitClosed] := by
  intro src
  induction src with
  | nil =>
    intro _ hsp
    subst hsp
    exact ⟨[], by simp [write_body]⟩
  | cons item rest ih =>
    intro hff hsp
    cases item with
    | srcError s => simp [firstFailure] at hff
    | chunk t d wf =>
      by_cases hcond : (t == "audio" && sp) = true
      · cases wf with
        | some m => simp [firstFailure, hcond] at hff
        | none =>
          obtain ⟨evs, hevs⟩ := ih (by simpa [firstFailure, hcond] using hff) hsp
          exact ⟨WEv.write d :: WEv.drain :: evs, by simp [write_body, hcond, hevs]⟩
      · obtain ⟨evs, hevs⟩ := ih (by simpa [firstFailure, hcond] using hff) hsp
        exact ⟨evs, by simp [write_body, hcond, hevs]⟩

theorem write_audio_eq (sp : Bool) (src : List SrcItem) :
    write_audio sp src =
      (write_body sp src).1 ++
        (match (write_body sp src).2 with
          | none => []
          | some m => [WEv.logError m]) := by
  unfold write_audio
  rcases hwb : write_body sp src with ⟨evs, exc⟩
  cases exc <;> simp

theorem read_audio_flatten : ∀ bytes : List Nat, (read_audio bytes).flatten = bytes := by
  intro bytes
  induction bytes using read_audio.induct with
  | case1 => simp [read_audio]
  | case2 b rest ih => simp [read_audio, ih]

theorem read_audio_no_empty_block : ∀ bytes : List Nat, [] ∉ read_audio bytes := by
  intro bytes
  induction bytes using read_audio.induct with
  | case1 => simp [read_audio]
  | case2 b rest ih => simp [read_audio, ih]

/-- C4: every failure inside the writer task — the source stream raising, or
a mid-stream write to the filter failing — is logged and the task ends
without re-raising (its result is an event list ending in the log entry,
never a propagated exception, and the `try` body itself never logs); on
source exhaustion without failure the writer closes the filter's input
channel and waits for the closure to be acknowledged as its final two
actions; and the reader path always completes normally, emitting exactly
the bytes the filter produced (a truncated or empty output yields a
truncated or empty sequence of non-empty blocks). -/
theorem c4_writer_failures_logged_reader_completes :
    ∀ (sp : Bool) (src : List SrcItem),
      (∀ m, firstFailure sp src = some m →
        ∃ evs, write_audio sp src = evs ++ [WEv.logError m] ∧
          ∀ m', WEv.logError m' ∉ evs) ∧
      (firstFailure sp src = none → sp = true →
        ∃ evs, write_audio sp src = evs ++ [WEv.closeInput, WEv.waitClosed] ∧
          ∀ m', WEv.logError m' ∉ write_audio sp src) ∧
      (∀ bytes : List Nat,
        (read_audio bytes).flatten = bytes ∧ [] ∉ read_audio bytes) := by
  intro sp src
  refine ⟨?_, ?_, fun bytes => ⟨read_audio_flatten bytes, read_audio_no_empty_block bytes⟩⟩
  · intro m hff
    refine ⟨(write_body sp src).1, ?_, fun m' => write_body_logError_free sp src m'⟩
    rw [write_audio_eq, write_body_snd, hff]
  · intro hff hsp
    obtain ⟨evs, hevs⟩ := write_body_success_shape sp src hff hsp
    refine ⟨evs, ?_, ?_⟩
    · rw [write_audio_eq, write_body_snd, hff, hevs]
      simp
    · intro m'
      rw [write_audio_eq, write_body_snd, hff]
      simpa using write_body_logError_free sp src m'

theorem c4_witness :
    (∃ evs, write_audio true [SrcItem.srcError "boom"] = evs ++ [WEv.logError "boom"] ∧
      ∀ m', WEv.logError m' ∉ evs) ∧
    (∃ evs, write_audio true [SrcItem.chunk "audio" [1] none] =
        evs ++ [WEv.closeInput, WEv.waitClosed] ∧
      ∀ m', WEv.logError m' ∉ write_audio true [SrcItem.chunk "audio" [1] none]) :=
  ⟨(c4_writer_failures_logged_reader_completes true [SrcItem.srcError "boom"]).1
      "boom" (by decide),
   (c4_writer_failures_logged_reader_completes true [SrcItem.chunk "audio" [1] none]).2.1
      (by decide) rfl⟩

/-- C7 counterexample: at the reachable request speed 1.2 the program emits
"+19%" — binary64 arithmetic gives int((1.2 - 1) * 100) =
int(19.999999999999996) = 19 — but the signed integer percentage of
(speed - 1) * 100 is 20, so the emitted rate is not "+20%" as the claim's
formula demands. -/
theorem c7_counterexample :
    rateString (roundDouble (6/5)) = "+19%" ∧
    pyInt (((6/5 : ℚ) - 1) * 100) = 20 ∧
    rateString (roundDouble (6/5)) ≠
      "+" ++ toString (pyInt (((6/5 : ℚ) - 1) * 100)) ++ "%" := by
  have h1 : rateString (roundDouble (6/5)) = "+19%" := by
    rw [rateString_of_ne (by rw [rd_6_5]; norm_num), rate_percent_6_5]
    decide
  have h2 : pyInt (((6/5 : ℚ) - 1) * 100) = 20 := by
    rw [show ((6/5 : ℚ) - 1) * 100 = ((20 : ℤ) : ℚ) by norm_num, pyInt_intCast]
  refine ⟨h1, h2, ?_⟩
  rw [h1, h2]
  decide

/-- C7 (amended): for every request that reaches synthesis, the rate string
sent to the provider is "+" followed by the binary64-truncated integer of
fl(fl(speed - 1) · 100), computed from the clamped speed — this can fall one
short of the exact signed percentage of (speed - 1) * 100, e.g. request
speed 1.2 yields "+19%", not "+20%" — while speed 1.3 still yields "+30%"
and speed 1.0 yields "+0%"; and for every request with a model of quality
"enhanced" (tts-1-hd), the requested speed is first clamped into
[0.8, 1.5] — the lower bound being the binary64 value of the literal 0.8 —
before the rate is computed. -/
theorem c7_rate_from_clamped_speed :
    ∀ (allVoices : List String) (stream : List Chunk) (text : String)
      (config : ModelConfig) (voice : String) (speed volume : ℚ) (r : GenOutcome),
      generate_edge_audio allVoices stream text config voice speed volume = .ok r →
      r.rate = rateString (clampSpeed config.quality speed) ∧
      (config.quality = "enhanced" →
        clampSpeed config.quality speed = max (roundDouble (4/5)) (min speed (3/2 : ℚ))) ∧
      (clampSpeed config.quality speed ≠ 1 →
        r.rate = "+" ++
          toString (pyInt (fmul (fsub (clampSpeed config.quality speed) 1) 100)) ++ "%") ∧
      (clampSpeed config.quality speed = 1 → r.rate = "+0%") ∧
      rateString (roundDouble (13/10)) = "+30%" ∧
      rateString 1 = "+0%" := by
  intro allVoices stream text config voice speed volume r h
  obtain ⟨hC, rfl⟩ := generate_ok_inv h
  refine ⟨rfl, ?_, ?_, ?_, ?_, ?_⟩
  · intro hq
    simp [clampSpeed, hq]
  · intro hne
    exact rateString_of_ne hne
  · intro h1
    exact rateString_of_eq_one h1
  · rw [rateString_of_ne (by rw [rd_13_10]; norm_num), rate_percent_13_10]
    decide
  · exact rateString_of_eq_one rfl

/-- C7 witness outcome: tts-1-hd request at speed 1.3 (the double
`roundDouble (13/10)`, which is what the JSON body's 1.3 parses to). -/
def c7Outcome : GenOutcome :=
  { realVoice := "zh-CN-YunjianNeural"
    rate := rateString (clampSpeed "enhanced" (roundDouble (13/10)))
    plan := .bypass (bypassLoop []) }

theorem c7_witness : c7Outcome.rate = "+30%" := by
  have hgen : generate_edge_audio ["zh-CN-YunjianNeural"] [] "hi" ttsHdConfig "nova"
      (roundDouble (13/10)) 1 = .ok c7Outcome := by
    rw [generate_edge_audio_eq, if_pos (by decide), if_neg (by simp)]
    rfl
  have hclamp : clampSpeed ttsHdConfig.quality (roundDouble (13/10)) = roundDouble (13/10) := by
    show (if ttsHdConfig.quality == "enhanced" then
        max (roundDouble (4/5)) (min (roundDouble (13/10)) (3/2 : ℚ))
      else roundDouble (13/10)) = roundDouble (13/10)
    rw [if_pos (by decide), min_eq_left (by rw [rd_13_10]; norm_num),
      max_eq_right (by rw [rd_4_5, rd_13_10]; norm_num)]
  have h := (c7_rate_from_clamped_speed ["zh-CN-YunjianNeural"] [] "hi" ttsHdConfig "nova"
    (roundDouble (13/10)) 1 c7Outcome hgen).2.2.1
    (by rw [hclamp, rd_13_10]; norm_num)
  rw [h, hclamp, rate_percent_13_10]
  decide

/-- C10 counterexample: the request speed 0.995 — accepted by validation
(0.5 ≤ 0.995 ≤ 2.0) and parsing to a double strictly below 1.0 — has a
float percentage of -0.50000000000000044…, which int() truncates to 0: the
rate string is "+0%" and contains no minus sign, refuting "for every speed
less than 1.0 the rate string contains both a plus and a minus sign". -/
theorem c10_counterexample :
    roundDouble (199/200) < 1 ∧ (1/2 : ℚ) ≤ roundDouble (199/200) ∧
      rateString (roundDouble (199/200)) = "+0%" ∧
      '-' ∉ (rateString (roundDouble (199/200))).data := by
  have heval : rateString (roundDouble (199/200)) = "+0%" := by
    rw [rateString_of_ne (by rw [rd_199_200]; norm_num), rate_percent_199_200]
    decide
  refine ⟨by rw [rd_199_200]; norm_num, by rw [rd_199_200]; norm_num, heval, ?_⟩
  rw [heval]
  decide

/-- C10 (amended): for every speed ≠ 1.0 the rate string is a literal "+"
prefixed to the binary64-truncated integer percentage int((speed - 1) * 100)
regardless of its sign; hence whenever that truncated percentage is negative
— e.g. clamped speed 0.8 giving "+-19%" (binary64 computes
int(-19.999999999999996) = -19), or speed 0.5 giving "+-50%" (that chain is
exact) — the string contains both a plus and a minus sign rather than a
well-formed signed percentage; but for speeds in (0.99, 1.0) the truncated
percentage is 0 and the string is "+0%" with no minus sign. -/
theorem c10_plus_prefix_regardless_of_sign :
    ∀ s : ℚ,
      (s ≠ 1 → rateString s = "+" ++ toString (pyInt (fmul (fsub s 1) 100)) ++ "%") ∧
      (pyInt (fmul (fsub s 1) 100) < 0 →
        '-' ∈ (rateString s).data ∧ '+' ∈ (rateString s).data) ∧
      rateString (roundDouble (4/5)) = "+-19%" ∧ rateString (1/2 : ℚ) = "+-50%" := by
  intro s
  refine ⟨fun hs => rateString_of_ne hs, ?_, ?_, ?_⟩
  · intro hneg
    have hs : s ≠ 1 := by
      rintro rfl
      rw [fmulFsubOne_one] at hneg
      simp [pyInt] at hneg
    rw [rateString_of_ne hs]
    generalize pyInt (fmul (fsub s 1) 100) = n at hneg
    constructor
    · match n, hneg with
      | Int.negSucc k, _ =>
        show '-' ∈ ("+" ++ ("-" ++ Nat.repr (k+1)) ++ "%").data
        simp [String.data_append]
    · have hdata : ("+" ++ toString n ++ "%").data =
          '+' :: ((toString n).data ++ ['%']) := by
        simp [String.data_append]
      rw [hdata]
      exact List.mem_cons_self _ _
  · rw [rateString_of_ne (by rw [rd_4_5]; norm_num), rate_percent_4_5]
    decide
  · rw [rateString_of_ne (by norm_num), rate_percent_1_2]
    decide

theorem c10_witness :
    rateString (1/2 : ℚ) = "+" ++ toString (pyInt (fmul (fsub (1/2 : ℚ) 1) 100)) ++ "%" ∧
      '-' ∈ (rateString (1/2 : ℚ)).data :=
  ⟨(c10_plus_prefix_regardless_of_sign (1/2)).1 (by norm_num),
   ((c10_plus_prefix_regardless_of_sign (1/2)).2.1
      (by rw [rate_percent_1_2]; norm_num)).1⟩

theorem create_speech_of_find_none {req : TTSParameters} {exc : Option String}
    (hfind : MODEL_CONFIG.find? (fun p => p.1 == req.model) = none) :
    create_speech req exc = .httpError 400 ("不支持的模型: " ++ req.model) := by
  unfold create_speech
  rw [hfind]

theorem create_speech_of_find_some {req : TTSParameters} {exc : Option String}
    {n : String} {cfg : ModelConfig}
    (hfind : MODEL_CONFIG.find? (fun p => p.1 == req.model) = some (n, cfg)) :
    create_speech req exc =
      (if ¬ cfg.allowed_formats.contains req.response_format then
        .httpError 400 ("模型" ++ req.model ++ "不支持格式: " ++ req.response_format)
      else if ¬ dictHasKey cfg.voice_map (pyLower req.voice) then
        .httpError 400 ("模型" ++ req.model ++ "不支持语音: " ++ req.voice)
      else
        match exc with
        | some m => .jsonBody 200 m "invalid_request_error" 500
        | none =>
          .streaming ("audio/" ++ req.response_format)
            [("Content-Disposition", "attachment; filename=speech.mp3"),
             ("OpenAI-Processing-Ms", "800")]
            req.input cfg (pyLower req.voice) req.speed req.volume) := by
  unfold create_speech
  rw [hfind]

theorem create_speech_streaming_inv {req : TTSParameters} {exc : Option String}
    {mt : String} {hs : List (String × String)} {txt : String}
    {cfg : ModelConfig} {v : String} {sp vol : ℚ}
    (h : create_speech req exc = .streaming mt hs txt cfg v sp vol) :
    MODEL_CONFIG.find? (fun p => p.1 == req.model) = some (req.model, cfg) ∧
    (req.model, cfg) ∈ MODEL_CONFIG ∧
    cfg.allowed_formats.contains req.response_format = true ∧
    dictHasKey cfg.voice_map (pyLower req.voice) = true ∧
    exc = none ∧
    mt = "audio/" ++ req.response_format ∧ txt = req.input ∧
    v = pyLower req.voice ∧ sp = req.speed ∧ vol = req.volume := by
  cases hfind : MODEL_CONFIG.find? (fun p => p.1 == req.model) with
  | none =>
    rw [create_speech_of_find_none hfind] at h
    exact SpeechResponse.noConfusion h
  | some p =>
    obtain ⟨n, cfg'⟩ := p
    rw [create_speech_of_find_some hfind] at h
    by_cases hfmt : cfg'.allowed_formats.contains req.response_format = true
    · rw [if_neg (not_not_intro hfmt)] at h
      by_cases hvk : dictHasKey cfg'.voice_map (pyLower req.voice) = true
      · rw [if_neg (not_not_intro hvk)] at h
        cases exc with
        | some m => exact SpeechResponse.noConfusion h
        | none =>
          injection h with h1 h2 h3 h4 h5 h6 h7
          subst h4
          have hname : n = req.model := by
            have := List.find?_some hfind
            simpa using this
          subst hname
          exact ⟨rfl, List.mem_of_find?_eq_some hfind, hfmt, hvk, rfl,
            h1.symm, h3.symm, h5.symm, h6.symm, h7.symm⟩
      · rw [if_pos hvk] at h
        exact SpeechResponse.noConfusion h
    · rw [if_pos hfmt] at h
      exact SpeechResponse.noConfusion h

theorem streaming_format_is_mp3 {req : TTSParameters} {exc : Option String}
    {mt : String} {hs : List (String × String)} {txt : String}
    {cfg : ModelConfig} {v : String} {sp vol : ℚ}
    (h : create_speech req exc = .streaming mt hs txt cfg v sp vol) :
    req.response_format = "mp3" := by
  obtain ⟨-, hmem, hfmt, -⟩ := create_speech_streaming_inv h
  have hcases : (req.model = "tts-1" ∧ cfg = ttsStdConfig) ∨
      (req.model = "tts-1-hd" ∧ cfg = ttsHdConfig) := by
    have h2 := hmem
    simp only [List.mem_cons, MODEL_CONFIG, List.not_mem_nil, or_false,
      Prod.mk.injEq] at h2
    exact h2
  have hforms : cfg.allowed_formats = ["mp3"] := by
    rcases hcases with ⟨-, rfl⟩ | ⟨-, rfl⟩ <;> rfl
  rw [hforms] at hfmt
  simpa using hfmt

/-- C6: validation failures (unsupported model, format, or voice) surface as
a standard HTTP error with status 400 — every `HTTPException` the endpoint
raises carries 400 — while a non-HTTP exception caught by the endpoint's
bare `except` clause after validation is returned as the structured JSON
body `{error: {message, type, code}}` on a response with HTTP status 200. -/
theorem c6_validation_http400_internal_json200 :
    ∀ (req : TTSParameters) (m : String),
      (∀ s d, create_speech req none = .httpError s d → s = 400) ∧
      (MODEL_CONFIG.find? (fun p => p.1 == req.model) = none →
        create_speech req none = .httpError 400 ("不支持的模型: " ++ req.model)) ∧
      ((∃ mt hs txt cfg v sp vol,
          create_speech req none = .streaming mt hs txt cfg v sp vol) →
        create_speech req (some m) = .jsonBody 200 m "invalid_request_error" 500) := by
  intro req m
  refine ⟨?_, ?_, ?_⟩
  · intro s d h
    unfold create_speech at h
    split at h
    · injection h with h1 _
      exact h1.symm
    · split at h
      · injection h with h1 _
        exact h1.symm
      · split at h
        · injection h with h1 _
          exact h1.symm
        · split at h <;> exact SpeechResponse.noConfusion h
  · intro hf
    unfold create_speech
    rw [hf]
  · rintro ⟨mt, hs', txt, cfg, v, sp, vol, h⟩
    obtain ⟨hfind, -, hfmt, hvk, -⟩ := create_speech_streaming_inv h
    rw [create_speech_of_find_some hfind, if_neg (not_not_intro hfmt),
      if_neg (not_not_intro hvk)]

/-- C6 witness request: a valid request on which an internal error occurs. -/
def c6OkReq : TTSParameters :=
  { model := "tts-1", input := "hello", voice := "nova"
    response_format := "mp3", speed := 1, volume := 1 }

theorem c6_witness :
    create_speech c6OkReq (some "boom") = .jsonBody 200 "boom" "invalid_request_error" 500 :=
  (c6_validation_http400_internal_json200 c6OkReq "boom").2.2
    ⟨"audio/mp3",
     [("Content-Disposition", "attachment; filename=speech.mp3"),
      ("OpenAI-Processing-Ms", "800")],
     "hello", ttsStdConfig, pyLower "nova", 1, 1, rfl⟩

/-- C8: for every request that passes validation and asks for volume ≠ 1.0,
the filter process is spawned with stdin, stdout and stderr all wired to
pipes, the exact argument vector reading from pipe:0, writing to pipe:1,
carrying the filter expression `volume=<volumeFactor>`, the output container
format equal to the request's response_format, and the diagnostic channel
suppressed via `-loglevel quiet`. -/
theorem c8_spawn_config_matches_request :
    ∀ (req : TTSParameters) (mt : String) (hs : List (String × String))
      (txt : String) (cfg : ModelConfig) (v : String) (sp vol : ℚ),
      create_speech req none = .streaming mt hs txt cfg v sp vol →
      vol ≠ 1 →
      ∀ (allVoices : List String) (stream : List Chunk) (r : GenOutcome),
        generate_edge_audio allVoices stream txt cfg v sp vol = .ok r →
        r.plan = Plan.filtered
          { cmd := ["ffmpeg", "-i", "pipe:0", "-af", "volume=" ++ toString vol,
                    "-f", req.response_format, "-loglevel", "quiet", "pipe:1"]
            stdinPipe := true, stdoutPipe := true, stderrPipe := true } := by
  intro req mt hs txt cfg v sp vol hcs hvol allVoices stream r hgen
  have hmp3 : req.response_format = "mp3" := streaming_format_is_mp3 hcs
  obtain ⟨hC, rfl⟩ := generate_ok_inv hgen
  show (if vol ≠ 1 then
      Plan.filtered { cmd := ffmpegCmd vol
                      stdinPipe := true, stdoutPipe := true, stderrPipe := true }
    else Plan.bypass (bypassLoop stream)) = _
  rw [if_pos hvol, hmp3]
  rfl

/-- C8 witness request: volume 2.0. -/
def c8Req : TTSParameters :=
  { model := "tts-1", input := "hello", voice := "nova"
    response_format := "mp3", speed := 1, volume := 2 }

/-- C8 witness outcome: the filtered plan for volume 2.0. -/
def c8Outcome : GenOutcome :=
  { realVoice := "zh-CN-YunxiNeural"
    rate := rateString (clampSpeed "standard" 1)
    plan := .filtered { cmd := ffmpegCmd 2
                        stdinPipe := true, stdoutPipe := true, stderrPipe := true } }

theorem c8_witness :
    c8Outcome.plan = Plan.filtered
      { cmd := ["ffmpeg", "-i", "pipe:0", "-af", "volume=" ++ toString (2 : ℚ),
                "-f", "mp3", "-loglevel", "quiet", "pipe:1"]
        stdinPipe := true, stdoutPipe := true, stderrPipe := true } := by
  have hcs : create_speech c8Req none = .streaming "audio/mp3"
      [("Content-Disposition", "attachment; filename=speech.mp3"),
       ("OpenAI-Processing-Ms", "800")]
      "hello" ttsStdConfig (pyLower "nova") 1 2 := rfl
  have hgen : generate_edge_audio ["zh-CN-YunxiNeural"] [] "hello" ttsStdConfig
      (pyLower "nova") 1 2 = .ok c8Outcome := by
    rw [generate_edge_audio_eq, if_pos (by decide), if_pos (by norm_num)]
    rfl
  exact c8_spawn_config_matches_request c8Req "audio/mp3" _ "hello" ttsStdConfig
    (pyLower "nova") 1 2 hcs (by norm_num) ["zh-CN-YunxiNeural"] [] c8Outcome hgen

/-- C9: a request whose (lower-cased) voice alias is missing from the
requested model's voice map is rejected with HTTP 400, the error detail
names the unsupported voice, and no streaming response — hence no provider
call — is ever produced, regardless of anything later in the handler. -/
theorem c9_unknown_alias_rejected_before_provider :
    ∀ (req : TTSParameters) (exc : Option String) (n : String) (cfg : ModelConfig),
      MODEL_CONFIG.find? (fun p => p.1 == req.model) = some (n, cfg) →
      cfg.allowed_formats.contains req.response_format = true →
      dictHasKey cfg.voice_map (pyLower req.voice) = false →
      create_speech req exc =
        .httpError 400 ("模型" ++ req.model ++ "不支持语音: " ++ req.voice) ∧
      (∃ pre post, "模型" ++ req.model ++ "不支持语音: " ++ req.voice =
        pre ++ req.voice ++ post) ∧
      (∀ mt hs txt cfg' v sp vol,
        create_speech req exc ≠ .streaming mt hs txt cfg' v sp vol) := by
  intro req exc n cfg hfind hfmt hvk
  have hmain : create_speech req exc =
      .httpError 400 ("模型" ++ req.model ++ "不支持语音: " ++ req.voice) := by
    rw [create_speech_of_find_some hfind, if_neg (not_not_intro hfmt),
      if_pos (by simp [hvk])]
  refine ⟨hmain, ⟨"模型" ++ req.model ++ "不支持语音: ", "", by rw [String.append_empty]⟩, ?_⟩
  intro mt hs txt cfg' v sp vol hcon
  rw [hmain] at hcon
  exact SpeechResponse.noConfusion hcon

/-- C9 witness request: voice "shimmer" on model "tts-1". -/
def c9Req : TTSParameters :=
  { model := "tts-1", input := "hello", voice := "shimmer"
    response_format := "mp3", speed := 1, volume := 1 }

theorem c9_witness :
    create_speech c9Req none =
      .httpError 400 ("模型" ++ c9Req.model ++ "不支持语音: " ++ c9Req.voice) :=
  (c9_unknown_alias_rejected_before_provider c9Req none "tts-1" ttsStdConfig
    (by decide) (by decide) (by decide)).1

theorem c1_witness :
    Ev.waitProcExit none ∈ filteredTrace [[0]] ExitCond.completed ∧
      Ev.forceKill ∉ filteredTrace [[0]] ExitCond.completed :=
  ⟨(c1_process_always_awaited_never_killed [[0]] ExitCond.completed).2.1,
   (c1_process_always_awaited_never_killed [[0]] ExitCond.completed).2.2.1⟩

theorem c3_witness :
    ((filteredTrace [[1], [2]] (ExitCond.disconnectAfter 1)).filter Ev.isYield).length ≤ 1 :=
  (c3_cleanup_order_on_every_exit_path [[1], [2]] (ExitCond.disconnectAfter 1)).2 1
